import Mathlib

/-!
Verification of the CMOS-inverter simulation script (`sim.py`).

The script builds a fixed netlist with PySpice, runs one transient analysis in
the external simulator, and plots the resulting waveforms with matplotlib.
All quantities are embedded as exact rationals in SI units.  Netlist
construction, the transient call and the plotting calls are translated from
the source; the behaviour of the external simulator and of the image renderer
is modelled from the specification wherever the source merely invokes them.
-/

/-- One SI volt (PySpice unit `u_V`). -/
def u_V : ℚ := 1

/-- One nanosecond in seconds (PySpice unit `u_ns`). -/
def u_ns : ℚ := 1 / 1000000000

/-- One nanometre in metres (PySpice unit `u_nm`). -/
def u_nm : ℚ := 1 / 1000000000

/-- One micrometre in metres (PySpice unit `u_um`). -/
def u_um : ℚ := 1 / 1000000

/-- One picofarad in farads (PySpice unit `u_pF`). -/
def u_pF : ℚ := 1 / 1000000000000

/-- Parameters of a SPICE pulsed voltage source, as accepted by
`Circuit.PulseVoltageSource` (unsupplied parameters default to 0). -/
structure PulseParams where
  initial_value : ℚ
  pulsed_value : ℚ
  delay_time : ℚ
  rise_time : ℚ
  fall_time : ℚ
  pulse_width : ℚ
  period : ℚ
deriving DecidableEq

/-- A netlist element, as declared by the PySpice `Circuit` element methods
used in `sim.py`: `V`, `PulseVoltageSource`, `MOSFET` (drain, gate, source,
bulk node order, as in the SPICE `M` card) and `C`. -/
inductive Element where
  | VoltageSource (name plus minus : String) (dc_value : ℚ)
  | PulseVoltageSource (name plus minus : String) (params : PulseParams)
  | MOSFET (name drain gate source bulk : String) (model : String)
      (length width : ℚ)
  | Capacitor (name plus minus : String) (capacitance : ℚ)
deriving DecidableEq

/-- A device model declaration (`circuit.model`). -/
structure DeviceModel where
  name : String
  modelType : String
  pmos : Bool
deriving DecidableEq

/-- A circuit netlist: a title plus element and model declarations in the
order the script declares them. -/
structure Circuit where
  title : String
  elements : List Element
  models : List DeviceModel
deriving DecidableEq

/-- The ground node: PySpice `circuit.gnd` is the SPICE node `0`. -/
def gnd : String := "0"

/-- Parameters of the script's input pulse source (`sim.py` lines 12-15):
0 V to 5 V, 5 ns width, 10 ns period, 1 ns rise and fall, no delay. -/
def inputPulse : PulseParams :=
  { initial_value := 0 * u_V
    pulsed_value := 5 * u_V
    delay_time := 0
    rise_time := 1 * u_ns
    fall_time := 1 * u_ns
    pulse_width := 5 * u_ns
    period := 10 * u_ns }

/-- The netlist built by `sim.py` lines 6-26, element by element in source
order: supply `Vdd`, the pulse source, the PMOS and NMOS devices, the load
capacitor, and the two device models. -/
def circuit : Circuit :=
  { title := "CMOS Inverter"
    elements :=
      [ Element.VoltageSource "dd" "vdd" gnd (5 * u_V)
      , Element.PulseVoltageSource "input" "vin" gnd inputPulse
      , Element.MOSFET "1" "out" "vin" "vdd" "vdd" "PMOS" (180 * u_nm) (10 * u_um)
      , Element.MOSFET "2" "out" "vin" gnd gnd "NMOS" (180 * u_nm) (10 * u_um)
      , Element.Capacitor "1" "out" gnd (1 * u_pF) ]
    models :=
      [ { name := "NMOS", modelType := "NMOS", pmos := false }
      , { name := "PMOS", modelType := "PMOS", pmos := true } ] }

/-- The four terminal nodes (drain, gate, source, bulk) of a MOSFET element;
`none` for any other element kind. -/
def mosfetNodes : Element → Option (String × String × String × String)
  | Element.MOSFET _ d g s b _ _ _ => some (d, g, s, b)
  | _ => none

/-- C1: the constructed netlist consists of exactly the listed fixed
elements with exactly the listed values: one 5 V DC source between `vdd` and
ground, one 0 V to 5 V pulse source on `vin` with 5 ns width, 10 ns period
and 1 ns edges, one PMOS and one NMOS each 180 nm long and 10 µm wide, one
1 pF load capacitor from `out` to ground, and one NMOS plus one PMOS device
model.  All values are written out in plain SI rationals. -/
theorem C1_netlist :
    circuit.elements =
      [ Element.VoltageSource "dd" "vdd" "0" 5
      , Element.PulseVoltageSource "input" "vin" "0"
          { initial_value := 0
            pulsed_value := 5
            delay_time := 0
            rise_time := 1 / 1000000000
            fall_time := 1 / 1000000000
            pulse_width := 5 / 1000000000
            period := 10 / 1000000000 }
      , Element.MOSFET "1" "out" "vin" "vdd" "vdd" "PMOS"
          (180 / 1000000000) (10 / 1000000)
      , Element.MOSFET "2" "out" "vin" "0" "0" "NMOS"
          (180 / 1000000000) (10 / 1000000)
      , Element.Capacitor "1" "out" "0" (1 / 1000000000000) ] ∧
    circuit.models =
      [ { name := "NMOS", modelType := "NMOS", pmos := false }
      , { name := "PMOS", modelType := "PMOS", pmos := true } ] := by
  constructor
  · norm_num [circuit, gnd, inputPulse, u_V, u_ns, u_nm, u_um, u_pF]
  · rfl

/-- C9: the two MOSFETs are wired as a CMOS inverter: the PMOS has drain
`out`, gate `vin`, source `vdd`, bulk `vdd`; the NMOS has drain `out`, gate
`vin`, source at ground (`0`) and bulk at ground; so both gates share the
input node `vin` and both drains share the output node `out`. -/
theorem C9_inverter_wiring :
    circuit.elements.filterMap mosfetNodes =
      [("out", "vin", "vdd", "vdd"), ("out", "vin", "0", "0")] ∧
    (circuit.elements.filterMap mosfetNodes).map (fun n => n.2.1) = ["vin", "vin"] ∧
    (circuit.elements.filterMap mosfetNodes).map (fun n => n.1) = ["out", "out"] := by
  refine ⟨?_, ?_, ?_⟩ <;> decide

/-- Transient-analysis parameters (`simulator.transient(step_time, end_time)`). -/
structure TransientParams where
  step_time : ℚ
  end_time : ℚ
deriving DecidableEq

/-- A configured simulator (`circuit.simulator(temperature, nominal_temperature)`). -/
structure SimulatorConfig where
  circuit : Circuit
  temperature : ℚ
  nominal_temperature : ℚ
deriving DecidableEq

/-- A Waveform Recording: a `time` sequence together with named signal
sequences, as produced by the transient analysis. -/
structure WaveformRecording where
  time : List ℚ
  signals : List (String × List ℚ)
deriving DecidableEq

/-- The phase of time `t` within the current pulse period: `t` shifted past
the initial delay and reduced modulo the period. -/
def pulseMod (p : PulseParams) (t : ℚ) : ℚ :=
  t - p.delay_time - p.period * ⌊(t - p.delay_time) / p.period⌋

/-- Modelled from the spec: the value of the SPICE pulsed source at time `t`
(the PULSE stimulus the spec describes as a 0-5 V square wave with linear
1 ns edges, 5 ns width and 10 ns period): the initial value before the
delay, then per period a linear rise, the pulsed plateau, a linear fall and
the initial value until the period ends. -/
def pulseValue (p : PulseParams) (t : ℚ) : ℚ :=
  if t < p.delay_time then p.initial_value
  else if pulseMod p t < p.rise_time then
    p.initial_value + (p.pulsed_value - p.initial_value) * (pulseMod p t / p.rise_time)
  else if pulseMod p t ≤ p.rise_time + p.pulse_width then p.pulsed_value
  else if pulseMod p t < p.rise_time + p.pulse_width + p.fall_time then
    p.pulsed_value + (p.initial_value - p.pulsed_value) *
      ((pulseMod p t - p.rise_time - p.pulse_width) / p.fall_time)
  else p.initial_value

/-- The parameters of the first pulsed voltage source of a netlist. -/
def pulseOf (c : Circuit) : PulseParams :=
  (c.elements.filterMap fun e =>
    match e with
    | Element.PulseVoltageSource _ _ _ p => some p
    | _ => none).headD
    { initial_value := 0, pulsed_value := 0, delay_time := 0,
      rise_time := 0, fall_time := 0, pulse_width := 0, period := 1 }

/-- The DC value of the first fixed voltage source of a netlist. -/
def vddOf (c : Circuit) : ℚ :=
  (c.elements.filterMap fun e =>
    match e with
    | Element.VoltageSource _ _ _ v => some v
    | _ => none).headD 0

/-- Modelled from the spec: the bounded propagation delay the spec ascribes
to device switching, taken as one nanosecond. -/
def propDelay : ℚ := 1 * u_ns

/-- Modelled from the spec: the simulated voltage on node `vin`, which
follows the programmed pulse source of the netlist. -/
def nodeVin (c : Circuit) (t : ℚ) : ℚ := pulseValue (pulseOf c) t

/-- Modelled from the spec: the simulated voltage on node `out`, the logical
complement of `vin` (swing referenced to the supply) after the bounded
propagation delay. -/
def nodeOut (c : Circuit) (t : ℚ) : ℚ :=
  vddOf c - pulseValue (pulseOf c) (t - propDelay)

/-- Modelled from the spec: the `time` sequence of a transient analysis, a
monotonically increasing fixed-step grid spanning `[0, end_time]` at
`step_time` spacing. -/
def transientTime (tp : TransientParams) : List ℚ :=
  (List.range (⌊tp.end_time / tp.step_time⌋.toNat + 1)).map
    (fun i : ℕ => (i : ℚ) * tp.step_time)

/-- Modelled from the spec: the external simulator's transient analysis,
returning a Waveform Recording whose `time` grid spans `[0, end_time]` and
whose `vin` and `out` signal sequences sample the node voltages on that
grid, aligned index-for-index with `time`. -/
def transient (cfg : SimulatorConfig) (tp : TransientParams) : WaveformRecording :=
  { time := transientTime tp
    signals :=
      [ ("vin", (transientTime tp).map (nodeVin cfg.circuit))
      , ("out", (transientTime tp).map (nodeOut cfg.circuit)) ] }

/-- The named signal sequence of a recording (`analysis['vin']`). -/
def signal (rec : WaveformRecording) (name : String) : List ℚ :=
  ((rec.signals.find? fun s => s.1 == name).map fun s => s.2).getD []

/-- The simulator configured by `sim.py` line 29: the constructed circuit at
temperature 25 and nominal temperature 25. -/
def simulator : SimulatorConfig := { circuit := circuit, temperature := 25, nominal_temperature := 25 }

/-- The transient parameters of `sim.py` line 30: 0.1 ns step, 50 ns end. -/
def tparams : TransientParams := { step_time := 0.1 * u_ns, end_time := 50 * u_ns }

/-- The Waveform Recording of the script's one transient call (`analysis`). -/
def analysis : WaveformRecording := transient simulator tparams

/-- A matplotlib charting command, one per `plt.*` call in `sim.py`
lines 33-42 (`plt.show` is `showFigure`). -/
inductive PlotCmd where
  | figure (width height : ℚ)
  | plotCurve (x y : List ℚ) (label : String)
  | title (s : String)
  | xlabel (s : String)
  | ylabel (s : String)
  | grid (b : Bool)
  | legend
  | savefig (fname : String) (dpi : ℕ)
  | showFigure
deriving DecidableEq

/-- The chart commands issued by `sim.py` lines 33-42, in source order, for
a given transient recording. -/
def plotCmds (a : WaveformRecording) : List PlotCmd :=
  [ PlotCmd.figure 10 5
  , PlotCmd.plotCurve a.time (signal a "vin") "Input (vin)"
  , PlotCmd.plotCurve a.time (signal a "out") "Output (out)"
  , PlotCmd.title "CMOS Inverter Simulation"
  , PlotCmd.xlabel "Time [s]"
  , PlotCmd.ylabel "Voltage [V]"
  , PlotCmd.grid true
  , PlotCmd.legend
  , PlotCmd.savefig "inverter_output.png" 300
  , PlotCmd.showFigure ]

/-- A file written to disk by the run. -/
structure FileArtifact where
  name : String
  nonEmpty : Bool
deriving DecidableEq

/-- Modelled from the spec: executing the chart commands writes exactly one
rendered, non-empty image file per `savefig` command and no other file;
`showFigure` only displays the figure and writes nothing. -/
def producedFiles : List PlotCmd → List FileArtifact
  | [] => []
  | PlotCmd.savefig n _ :: rest => { name := n, nonEmpty := true } :: producedFiles rest
  | _ :: rest => producedFiles rest

/-- A failure of one of the external calls the script makes: netlist
construction (malformed parameters), simulation (non-convergence or invalid
device parameters), or rendering. -/
inductive SimError where
  | constructionFailure (msg : String)
  | convergenceFailure (msg : String)
  | invalidDeviceParameters (msg : String)
  | renderFailure (msg : String)
deriving DecidableEq

/-- The result of the plotting stage: the files written to disk. -/
structure PlotOutput where
  files : List FileArtifact
deriving DecidableEq

/-- One attempted external call of the script, with its arguments. -/
inductive Call where
  | buildCall
  | transientCall (cfg : SimulatorConfig) (tp : TransientParams)
  | renderCall (cmds : List PlotCmd)

/-- The script as a straight-line fallible pipeline: build the netlist, run
the single transient analysis at temperature 25 / nominal 25 with the fixed
step and end times, then render.  There is no handler anywhere, so each
stage runs only if the previous one succeeded and the first failure is the
final result.  The returned list records every attempted external call in
order. -/
def runScript (build : Except SimError Circuit)
    (simulate : SimulatorConfig → TransientParams → Except SimError WaveformRecording)
    (render : List PlotCmd → Except SimError PlotOutput) :
    Except SimError PlotOutput × List Call :=
  match build with
  | Except.error e => (Except.error e, [Call.buildCall])
  | Except.ok c =>
    match simulate { circuit := c, temperature := 25, nominal_temperature := 25 } tparams with
    | Except.error e =>
        (Except.error e,
         [ Call.buildCall
         , Call.transientCall { circuit := c, temperature := 25, nominal_temperature := 25 } tparams ])
    | Except.ok a =>
      match render (plotCmds a) with
      | Except.error e =>
          (Except.error e,
           [ Call.buildCall
           , Call.transientCall { circuit := c, temperature := 25, nominal_temperature := 25 } tparams
           , Call.renderCall (plotCmds a) ])
      | Except.ok o =>
          (Except.ok o,
           [ Call.buildCall
           , Call.transientCall { circuit := c, temperature := 25, nominal_temperature := 25 } tparams
           , Call.renderCall (plotCmds a) ])

/-- The modelled simulator as a collaborator that succeeds. -/
def simulateOk (cfg : SimulatorConfig) (tp : TransientParams) :
    Except SimError WaveformRecording :=
  Except.ok (transient cfg tp)

/-- The modelled renderer as a collaborator that succeeds. -/
def renderOk (cmds : List PlotCmd) : Except SimError PlotOutput :=
  Except.ok { files := producedFiles cmds }

/-- The actual run of `sim.py`: the literal netlist, the modelled simulator
and the modelled renderer. -/
def run : Except SimError PlotOutput × List Call :=
  runScript (Except.ok circuit) simulateOk renderOk

/-- The arguments of a transient-analysis call; `none` for other calls. -/
def transientArgs : Call → Option (SimulatorConfig × TransientParams)
  | Call.transientCall cfg tp => some (cfg, tp)
  | _ => none

/-- The interpreter state of the script: the circuit plus the variables
assigned later (`analysis`, and the figure being drawn). -/
structure ScriptState where
  circuit : Circuit
  analysis : Option WaveformRecording
  figure : List PlotCmd

/-- `sim.py` lines 29-30: run the transient analysis and bind the result;
the circuit field is carried through unchanged. -/
def simulateStep (s : ScriptState) : ScriptState :=
  { s with
    analysis := some (transient
      { circuit := s.circuit, temperature := 25, nominal_temperature := 25 } tparams) }

/-- `sim.py` lines 33-42: draw the figure from the recording; the circuit
field is carried through unchanged. -/
def plotStep (s : ScriptState) : ScriptState :=
  { s with
    figure :=
      match s.analysis with
      | some a => plotCmds a
      | none => [] }

theorem transientTime_length (tp : TransientParams) :
    (transientTime tp).length = ⌊tp.end_time / tp.step_time⌋.toNat + 1 := by
  rw [transientTime, List.length_map, List.length_range]

theorem transientTime_getD (tp : TransientParams) (i : ℕ)
    (h : i < (transientTime tp).length) :
    (transientTime tp).getD i 0 = (i : ℚ) * tp.step_time := by
  rw [List.getD_eq_getElem _ _ h]
  simp only [transientTime, List.getElem_map, List.getElem_range]

theorem tparams_steps : ⌊tparams.end_time / tparams.step_time⌋ = 500 := by
  have h : tparams.end_time / tparams.step_time = ((500 : ℤ) : ℚ) := by
    norm_num [tparams, u_ns]
  rw [h, Int.floor_intCast]

theorem analysis_time_length : analysis.time.length = 501 := by
  show (transientTime tparams).length = 501
  rw [transientTime_length, tparams_steps]
  rfl

theorem tparams_step_val : tparams.step_time = 1 / 10000000000 := by
  norm_num [tparams, u_ns]

/-- C2: the transient analysis is invoked exactly once, with step time
0.1 ns and end time 50 ns, on the simulator configured at temperature 25 and
nominal temperature 25; and the `time` sequence of the returned recording
has 501 points spanning [0, 50 ns] at 0.1 ns spacing. -/
theorem C2_transient_grid :
    run.2.filterMap transientArgs = [(simulator, tparams)] ∧
    simulator.temperature = 25 ∧
    simulator.nominal_temperature = 25 ∧
    tparams.step_time = 1 / 10000000000 ∧
    tparams.end_time = 50 / 1000000000 ∧
    analysis.time.length = 501 ∧
    analysis.time.getD 0 0 = 0 ∧
    analysis.time.getD 500 0 = 50 / 1000000000 ∧
    (∀ i : ℕ, i + 1 < 501 →
      analysis.time.getD (i + 1) 0 - analysis.time.getD i 0 = 1 / 10000000000) := by
  refine ⟨rfl, rfl, rfl, tparams_step_val, by norm_num [tparams, u_ns],
    analysis_time_length, ?_, ?_, ?_⟩
  · have h0 : 0 < (transientTime tparams).length := by
      rw [transientTime_length, tparams_steps]; decide
    show (transientTime tparams).getD 0 0 = 0
    rw [transientTime_getD _ _ h0]
    norm_num
  · have h5 : 500 < (transientTime tparams).length := by
      rw [transientTime_length, tparams_steps]; decide
    show (transientTime tparams).getD 500 0 = 50 / 1000000000
    rw [transientTime_getD _ _ h5, tparams_step_val]
    norm_num
  · intro i hi
    have hlen : (transientTime tparams).length = 501 := analysis_time_length
    have h1 : i + 1 < (transientTime tparams).length := by rw [hlen]; exact hi
    have h0 : i < (transientTime tparams).length :=
      Nat.lt_of_le_of_lt (Nat.le_succ i) h1
    show (transientTime tparams).getD (i + 1) 0 - (transientTime tparams).getD i 0
      = 1 / 10000000000
    rw [transientTime_getD _ _ h1, transientTime_getD _ _ h0, tparams_step_val]
    push_cast
    ring

theorem C2_transient_grid_witness :
    (0 : ℕ) + 1 < 501 ∧
    analysis.time.getD 1 0 - analysis.time.getD 0 0 = 1 / 10000000000 :=
  ⟨by decide, C2_transient_grid.2.2.2.2.2.2.2.2 0 (by decide)⟩

/-- C3: in every Waveform Recording returned by the modelled transient
analysis, every named signal sequence has exactly the same length as the
`time` sequence. -/
theorem C3_signal_alignment (cfg : SimulatorConfig) (tp : TransientParams) :
    ∀ s ∈ (transient cfg tp).signals, s.2.length = (transient cfg tp).time.length := by
  intro s hs
  simp only [transient, List.mem_cons, List.not_mem_nil, or_false] at hs
  rcases hs with h | h <;> subst h <;> simp [transient]

theorem C3_signal_alignment_witness :
    (("vin", (transient simulator tparams).time.map (nodeVin circuit)) :
        String × List ℚ).2.length = (transient simulator tparams).time.length :=
  C3_signal_alignment simulator tparams
    ("vin", (transient simulator tparams).time.map (nodeVin circuit)) (List.Mem.head _)

/-- C5: the run produces exactly one output file, the non-empty rendered
image with the fixed name `inverter_output.png`; the figure contains the two
curves `vin` and `out` over time, the axis labels, a legend and grid lines;
and the executed chart commands write no other file. -/
theorem C5_output_artifact (a : WaveformRecording) :
    producedFiles (plotCmds a) = [{ name := "inverter_output.png", nonEmpty := true }] ∧
    PlotCmd.plotCurve a.time (signal a "vin") "Input (vin)" ∈ plotCmds a ∧
    PlotCmd.plotCurve a.time (signal a "out") "Output (out)" ∈ plotCmds a ∧
    PlotCmd.xlabel "Time [s]" ∈ plotCmds a ∧
    PlotCmd.ylabel "Voltage [V]" ∈ plotCmds a ∧
    PlotCmd.legend ∈ plotCmds a ∧
    PlotCmd.grid true ∈ plotCmds a ∧
    run.1 = Except.ok { files := [{ name := "inverter_output.png", nonEmpty := true }] } := by
  refine ⟨rfl, ?_, ?_, ?_, ?_, ?_, ?_, rfl⟩ <;> simp [plotCmds]

/-- C6: every failure of netlist construction, of the simulation call, or of
rendering propagates unchanged as the final result; the run stops at the
failing call with no retry, no recovery and no partial result. -/
theorem C6_failure_propagation
    (build : Except SimError Circuit)
    (simulate : SimulatorConfig → TransientParams → Except SimError WaveformRecording)
    (render : List PlotCmd → Except SimError PlotOutput) (e : SimError) :
    (build = Except.error e →
      runScript build simulate render = (Except.error e, [Call.buildCall])) ∧
    (∀ c, build = Except.ok c →
      simulate { circuit := c, temperature := 25, nominal_temperature := 25 } tparams
        = Except.error e →
      runScript build simulate render =
        (Except.error e,
         [ Call.buildCall
         , Call.transientCall { circuit := c, temperature := 25, nominal_temperature := 25 }
             tparams ])) ∧
    (∀ c a, build = Except.ok c →
      simulate { circuit := c, temperature := 25, nominal_temperature := 25 } tparams
        = Except.ok a →
      render (plotCmds a) = Except.error e →
      runScript build simulate render =
        (Except.error e,
         [ Call.buildCall
         , Call.transientCall { circuit := c, temperature := 25, nominal_temperature := 25 }
             tparams
         , Call.renderCall (plotCmds a) ])) := by
  refine ⟨?_, ?_, ?_⟩
  · intro h
    rw [h]
    rfl
  · intro c hb hs
    rw [hb]
    simp [runScript, hs]
  · intro c a hb hs hr
    rw [hb]
    simp [runScript, hs, hr]

theorem C6_failure_propagation_witness :
    runScript (Except.error (SimError.constructionFailure "malformed")) simulateOk renderOk
      = (Except.error (SimError.constructionFailure "malformed"), [Call.buildCall]) ∧
    runScript (Except.ok circuit)
        (fun _ _ => Except.error (SimError.convergenceFailure "gmin")) renderOk
      = (Except.error (SimError.convergenceFailure "gmin"),
         [Call.buildCall, Call.transientCall simulator tparams]) ∧
    runScript (Except.ok circuit) simulateOk
        (fun _ => Except.error (SimError.renderFailure "backend"))
      = (Except.error (SimError.renderFailure "backend"),
         [Call.buildCall, Call.transientCall simulator tparams,
          Call.renderCall (plotCmds analysis)]) :=
  ⟨(C6_failure_propagation _ simulateOk renderOk _).1 rfl,
   (C6_failure_propagation _ _ renderOk _).2.1 circuit rfl rfl,
   (C6_failure_propagation _ simulateOk _ _).2.2 circuit analysis rfl rfl rfl⟩

/-- C7: the circuit topology is write-once: neither the simulation step nor
the plotting step changes the circuit description, and after both steps the
circuit is still exactly the constructed netlist. -/
theorem C7_circuit_immutable :
    (∀ s : ScriptState, (simulateStep s).circuit = s.circuit) ∧
    (∀ s : ScriptState, (plotStep s).circuit = s.circuit) ∧
    (plotStep (simulateStep
      { circuit := circuit, analysis := none, figure := [] })).circuit = circuit :=
  ⟨fun _ => rfl, fun _ => rfl, rfl⟩

/-- C8: the pipeline is deterministic: two runs of the script with the same
collaborators, and two transient analyses of the same configuration and
parameters, return identical results. -/
theorem C8_deterministic
    (build : Except SimError Circuit)
    (simulate : SimulatorConfig → TransientParams → Except SimError WaveformRecording)
    (render : List PlotCmd → Except SimError PlotOutput)
    (o1 o2 : Except SimError PlotOutput × List Call)
    (r1 r2 : WaveformRecording)
    (h1 : o1 = runScript build simulate render)
    (h2 : o2 = runScript build simulate render)
    (hr1 : r1 = transient simulator tparams)
    (hr2 : r2 = transient simulator tparams) :
    o1 = o2 ∧ r1 = r2 :=
  ⟨h1.trans h2.symm, hr1.trans hr2.symm⟩

theorem C8_deterministic_witness : run = run ∧ analysis = analysis :=
  C8_deterministic (Except.ok circuit) simulateOk renderOk run run analysis analysis
    rfl rfl rfl rfl

/-- C10: in the issued chart commands the `savefig` call (to
`inverter_output.png` at 300 dpi) comes strictly before the `showFigure`
call — positions 8 and 9 of the 10 commands — and the commands preceding
`showFigure` already write the image file, so the artifact exists even if
displaying the figure subsequently fails. -/
theorem C10_savefig_precedes_display (a : WaveformRecording) :
    (plotCmds a)[8]? = some (PlotCmd.savefig "inverter_output.png" 300) ∧
    (plotCmds a)[9]? = some PlotCmd.showFigure ∧
    (plotCmds a).length = 10 ∧
    producedFiles ((plotCmds a).take 9)
      = [{ name := "inverter_output.png", nonEmpty := true }] :=
  ⟨rfl, rfl, rfl, rfl⟩

theorem pulseOf_circuit : pulseOf circuit = inputPulse := rfl

theorem vddOf_circuit : vddOf circuit = 5 := by
  show (5 : ℚ) * u_V = 5
  norm_num [u_V]

theorem pulseMod_shift (k : ℕ) (t : ℚ) (h0 : 0 ≤ t) (h1 : t < 10 * u_ns) :
    pulseMod inputPulse ((k : ℚ) * (10 * u_ns) + t) = t := by
  have hP : (0 : ℚ) < 10 * u_ns := by norm_num [u_ns]
  have hfl : ⌊(((k : ℚ) * (10 * u_ns) + t) - inputPulse.delay_time) / inputPulse.period⌋
      = (k : ℤ) := by
    rw [show inputPulse.delay_time = 0 from rfl, sub_zero,
        show inputPulse.period = 10 * u_ns from rfl]
    have hdiv : ((k : ℚ) * (10 * u_ns) + t) / (10 * u_ns) = (k : ℚ) + t / (10 * u_ns) := by
      field_simp
    rw [hdiv, Int.floor_nat_add]
    have hz : ⌊t / (10 * u_ns)⌋ = 0 := by
      rw [Int.floor_eq_zero_iff, Set.mem_Ico]
      exact ⟨div_nonneg h0 hP.le, (div_lt_one hP).mpr h1⟩
    rw [hz, add_zero]
  rw [pulseMod, hfl, show inputPulse.delay_time = 0 from rfl,
      show inputPulse.period = 10 * u_ns from rfl]
  push_cast
  ring

theorem pulseValue_high (x : ℚ) (hx : 0 ≤ x)
    (hm1 : 1 * u_ns ≤ pulseMod inputPulse x) (hm2 : pulseMod inputPulse x ≤ 6 * u_ns) :
    pulseValue inputPulse x = 5 := by
  have h1 : ¬ x < inputPulse.delay_time := by
    rw [show inputPulse.delay_time = 0 from rfl]
    exact not_lt.mpr hx
  have h2 : ¬ pulseMod inputPulse x < inputPulse.rise_time := by
    rw [show inputPulse.rise_time = 1 * u_ns from rfl]
    exact not_lt.mpr hm1
  have h3 : pulseMod inputPulse x ≤ inputPulse.rise_time + inputPulse.pulse_width := by
    rw [show inputPulse.rise_time = 1 * u_ns from rfl,
        show inputPulse.pulse_width = 5 * u_ns from rfl,
        show (1 : ℚ) * u_ns + 5 * u_ns = 6 * u_ns from by ring]
    exact hm2
  rw [pulseValue, if_neg h1, if_neg h2, if_pos h3]
  norm_num [inputPulse, u_V]

theorem pulseValue_low (x : ℚ) (hx : 0 ≤ x)
    (hm1 : 7 * u_ns ≤ pulseMod inputPulse x) :
    pulseValue inputPulse x = 0 := by
  have hu : (0 : ℚ) < u_ns := by norm_num [u_ns]
  have h1 : ¬ x < inputPulse.delay_time := by
    rw [show inputPulse.delay_time = 0 from rfl]
    exact not_lt.mpr hx
  have h2 : ¬ pulseMod inputPulse x < inputPulse.rise_time := by
    rw [show inputPulse.rise_time = 1 * u_ns from rfl]
    refine not_lt.mpr (le_trans ?_ hm1)
    nlinarith
  have h3 : ¬ pulseMod inputPulse x ≤ inputPulse.rise_time + inputPulse.pulse_width := by
    rw [show inputPulse.rise_time = 1 * u_ns from rfl,
        show inputPulse.pulse_width = 5 * u_ns from rfl]
    refine not_le.mpr (lt_of_lt_of_le ?_ hm1)
    nlinarith
  have h4 : ¬ pulseMod inputPulse x
      < inputPulse.rise_time + inputPulse.pulse_width + inputPulse.fall_time := by
    rw [show inputPulse.rise_time = 1 * u_ns from rfl,
        show inputPulse.pulse_width = 5 * u_ns from rfl,
        show inputPulse.fall_time = 1 * u_ns from rfl,
        show (1 : ℚ) * u_ns + 5 * u_ns + 1 * u_ns = 7 * u_ns from by ring]
    exact not_lt.mpr hm1
  rw [pulseValue, if_neg h1, if_neg h2, if_neg h3, if_neg h4]
  norm_num [inputPulse, u_V]

theorem nodeVin_high (k : ℕ) (t : ℚ) (h1 : 1 * u_ns ≤ t) (h2 : t ≤ 6 * u_ns) :
    nodeVin circuit ((k : ℚ) * (10 * u_ns) + t) = 5 := by
  have h0t : 0 ≤ t := le_trans (by norm_num [u_ns]) h1
  have hlt : t < 10 * u_ns := lt_of_le_of_lt h2 (by norm_num [u_ns])
  have hm : pulseMod inputPulse ((k : ℚ) * (10 * u_ns) + t) = t :=
    pulseMod_shift k t h0t hlt
  have hx : 0 ≤ (k : ℚ) * (10 * u_ns) + t :=
    add_nonneg (mul_nonneg (Nat.cast_nonneg k) (by norm_num [u_ns])) h0t
  rw [nodeVin, pulseOf_circuit]
  exact pulseValue_high _ hx (by rw [hm]; exact h1) (by rw [hm]; exact h2)

theorem nodeVin_low (k : ℕ) (t : ℚ) (h1 : 7 * u_ns ≤ t) (h2 : t < 10 * u_ns) :
    nodeVin circuit ((k : ℚ) * (10 * u_ns) + t) = 0 := by
  have h0t : 0 ≤ t := le_trans (by norm_num [u_ns]) h1
  have hm : pulseMod inputPulse ((k : ℚ) * (10 * u_ns) + t) = t :=
    pulseMod_shift k t h0t h2
  have hx : 0 ≤ (k : ℚ) * (10 * u_ns) + t :=
    add_nonneg (mul_nonneg (Nat.cast_nonneg k) (by norm_num [u_ns])) h0t
  rw [nodeVin, pulseOf_circuit]
  exact pulseValue_low _ hx (by rw [hm]; exact h1)

theorem nodeOut_eq (t : ℚ) :
    nodeOut circuit t = 5 - nodeVin circuit (t - propDelay) := by
  rw [nodeOut, nodeVin, vddOf_circuit]

/-- C4: in the returned Waveform Recording, `vin` and `out` sample the node
voltages on the time grid; `vin` alternates between 0 V and 5 V following
the programmed pulse timing (5 V on the high plateau from 1 ns to 6 ns of
every 10 ns period, 0 V on the low plateau from 7 ns to the period's end);
and `out` is the logical complement after the bounded propagation delay:
whenever `vin` has been high (at least 4 V) throughout the delay window,
`out` is low (at most 1 V), and whenever `vin` has been low (at most 1 V)
throughout the delay window, `out` is high (at least 4 V). -/
theorem C4_inverter_response :
    signal analysis "vin" = analysis.time.map (nodeVin circuit) ∧
    signal analysis "out" = analysis.time.map (nodeOut circuit) ∧
    (∀ k : ℕ, ∀ t : ℚ, 1 * u_ns ≤ t → t ≤ 6 * u_ns →
      nodeVin circuit ((k : ℚ) * (10 * u_ns) + t) = 5) ∧
    (∀ k : ℕ, ∀ t : ℚ, 7 * u_ns ≤ t → t < 10 * u_ns →
      nodeVin circuit ((k : ℚ) * (10 * u_ns) + t) = 0) ∧
    (∀ t : ℚ, (∀ s : ℚ, t - propDelay ≤ s → s ≤ t → 4 ≤ nodeVin circuit s) →
      nodeOut circuit t ≤ 1) ∧
    (∀ t : ℚ, (∀ s : ℚ, t - propDelay ≤ s → s ≤ t → nodeVin circuit s ≤ 1) →
      4 ≤ nodeOut circuit t) := by
  have hd : (0 : ℚ) ≤ propDelay := by norm_num [propDelay, u_ns]
  refine ⟨rfl, rfl, nodeVin_high, nodeVin_low, ?_, ?_⟩
  · intro t h
    have hv := h (t - propDelay) le_rfl (by linarith)
    rw [nodeOut_eq]
    linarith
  · intro t h
    have hv := h (t - propDelay) le_rfl (by linarith)
    rw [nodeOut_eq]
    linarith

theorem C4_inverter_response_witness :
    nodeVin circuit (3 * u_ns) = 5 ∧
    nodeVin circuit (8 * u_ns) = 0 ∧
    nodeOut circuit (5 * u_ns) ≤ 1 ∧
    4 ≤ nodeOut circuit (9 * u_ns) := by
  refine ⟨?_, ?_, ?_, ?_⟩
  · have h := C4_inverter_response.2.2.1 0 (3 * u_ns)
      (by norm_num [u_ns]) (by norm_num [u_ns])
    rw [show ((0 : ℕ) : ℚ) * (10 * u_ns) + 3 * u_ns = 3 * u_ns from by push_cast; ring] at h
    exact h
  · have h := C4_inverter_response.2.2.2.1 0 (8 * u_ns)
      (by norm_num [u_ns]) (by norm_num [u_ns])
    rw [show ((0 : ℕ) : ℚ) * (10 * u_ns) + 8 * u_ns = 8 * u_ns from by push_cast; ring] at h
    exact h
  · refine C4_inverter_response.2.2.2.2.1 (5 * u_ns) ?_
    intro s hs1 hs2
    have hw : 5 * u_ns - propDelay = 4 * u_ns := by norm_num [propDelay, u_ns]
    rw [hw] at hs1
    have h1 : 1 * u_ns ≤ s := le_trans (by norm_num [u_ns]) hs1
    have h2 : s ≤ 6 * u_ns := le_trans hs2 (by norm_num [u_ns])
    have h := C4_inverter_response.2.2.1 0 s h1 h2
    rw [show ((0 : ℕ) : ℚ) * (10 * u_ns) + s = s from by push_cast; ring] at h
    rw [h]
    norm_num
  · refine C4_inverter_response.2.2.2.2.2 (9 * u_ns) ?_
    intro s hs1 hs2
    have hw : 9 * u_ns - propDelay = 8 * u_ns := by norm_num [propDelay, u_ns]
    rw [hw] at hs1
    have h1 : 7 * u_ns ≤ s := le_trans (by norm_num [u_ns]) hs1
    have h2 : s < 10 * u_ns := lt_of_le_of_lt hs2 (by norm_num [u_ns])
    have h := C4_inverter_response.2.2.2.1 0 s h1 h2
    rw [show ((0 : ℕ) : ℚ) * (10 * u_ns) + s = s from by push_cast; ring] at h
    rw [h]
    norm_num
